import Mathlib

/-!
Shallow embedding of the disaster-simulation core of the Sismotower
building-resistance game: the structural-bonus calculator, the disaster
wave resolver, the result classification, and the repair operation.

Machine numbers of the source are modelled as exact rationals.  The
material/disaster catalog (component config, disaster powers) and the
tuning constants (MIN/MAX structural resistance, max structural bonus)
live in a configuration module outside the embedded sources, so they are
taken as parameters of every definition.
-/

namespace Sismotower

/-- The nine building aspects plus the roof: per-floor structural
components and the four single-instance defense systems. -/
inductive BuildingComponentId where
  | Pillars
  | Beams
  | Walls
  | Glass
  | Floor
  | Roof
  | LightningRod
  | WindDampers
  | TsunamiBarriers
  | SeismicDampers
  deriving DecidableEq

/-- The four disaster kinds. -/
inductive DisasterId where
  | Earthquake
  | Hurricane
  | Tsunami
  | LightningStorm
  deriving DecidableEq

/-- A material of the catalog: monetary cost and resistance scalar. -/
structure Material where
  cost : ℚ
  resistance : ℚ

/-- Material identifiers (opaque keys into the catalog). -/
abbrev MaterialTypeId := ℕ

/-- The static COMPONENT_CONFIG lookup: component id, then material id,
to the material record. -/
abbrev Catalog := BuildingComponentId → MaterialTypeId → Material

/-- The DISASTER_CONFIG power lookup. -/
abbrev DisasterPowers := DisasterId → ℚ

/-- BuildingState: per component, the ordered sequence of selected
material ids (one per level). -/
abbrev BuildingState := BuildingComponentId → List MaterialTypeId

/-- ComponentHealth: per component, the ordered sequence of per-level
health scalars. -/
abbrev ComponentHealth := BuildingComponentId → List ℚ

open BuildingComponentId DisasterId

/-- The three primary structural components scanned by the bonus
calculator. -/
def structuralComponents : List BuildingComponentId := [Pillars, Beams, Floor]

/-- The four single-instance defense systems. -/
def defenseComponents : List BuildingComponentId :=
  [LightningRod, WindDampers, TsunamiBarriers, SeismicDampers]

/-- Total levels scanned over Pillars, Beams and Floor
(the componentCount accumulator of structuralBonus). -/
def structuralLevelCount (b : BuildingState) : ℕ :=
  (structuralComponents.map fun c => (b c).length).sum

/-- Total resistance of the selected materials over every level of
Pillars, Beams and Floor (the totalResistance accumulator). -/
def structuralTotalResistance (cfg : Catalog) (b : BuildingState) : ℚ :=
  (structuralComponents.map fun c =>
    ((b c).map fun m => (cfg c m).resistance).sum).sum

/-- The clamped linear interpolation at the heart of structuralBonus,
as a function of the average resistance. -/
def bonusOfAvg (minR maxR maxBonus avgResistance : ℚ) : ℚ :=
  if avgResistance ≤ minR then 0
  else if maxR ≤ avgResistance then maxBonus
  else ((avgResistance - minR) / (maxR - minR)) * maxBonus

/-- The structuralBonus memo of the source: average the resistances of
the selected materials over every level of Pillars, Beams and Floor and
interpolate between the two resistance thresholds, returning 0 when
there are no levels. -/
def structuralBonus (cfg : Catalog) (minR maxR maxBonus : ℚ)
    (b : BuildingState) : ℚ :=
  let componentCount := structuralLevelCount b
  if componentCount = 0 then 0
  else
    let avgResistance := structuralTotalResistance cfg b / componentCount
    bonusOfAvg minR maxR maxBonus avgResistance

/-- Reference definition of the bonus calculator, following the spec
text: flatten the selected resistances of Pillars, Beams and Floor into
one list, average it, and apply the piecewise rule. -/
def computeStructuralBonusSpec (cfg : Catalog) (minR maxR maxBonus : ℚ)
    (b : BuildingState) : ℚ :=
  let resistances :=
    (structuralComponents.map fun c =>
      (b c).map fun m => (cfg c m).resistance).flatten
  if resistances.length = 0 then 0
  else
    let avg := resistances.sum / resistances.length
    if avg ≤ minR then 0
    else if maxR ≤ avg then maxBonus
    else ((avg - minR) / (maxR - minR)) * maxBonus

/-- Pointwise update of one component-level entry of a health map. -/
def updateHealth (h : ComponentHealth) (c : BuildingComponentId) (i : ℕ)
    (v : ℚ) : ComponentHealth :=
  fun x => if x = c then (h c).set i v else h x

/-- One damage write of the source,
newHealth[c][i] = Math.max(0, newHealth[c][i] - d). -/
def applyDamage (h : ComponentHealth) (c : BuildingComponentId) (i : ℕ)
    (d : ℚ) : ComponentHealth :=
  updateHealth h c i (max 0 ((h c).getD i 0 - d))

/-- The fixed per-wave intensity multipliers (low, medium, high). -/
def waveIntensities : List ℚ := [0.6, 0.8, 1.0]

/-- Resistance of the defense system matched to a non-lightning
disaster, read at level 0 of the defense component. -/
def defenseResistanceFor (cfg : Catalog) (b : BuildingState)
    (disasterId : DisasterId) : ℚ :=
  match disasterId with
  | Hurricane => (cfg WindDampers ((b WindDampers).getD 0 0)).resistance
  | Tsunami => (cfg TsunamiBarriers ((b TsunamiBarriers).getD 0 0)).resistance
  | Earthquake => (cfg SeismicDampers ((b SeismicDampers).getD 0 0)).resistance
  | LightningStorm => 0

/-- Damage one level of one component takes in the uniform
(non-lightning) model, before clamping against current health:
per-level material mitigation, then the disaster-specific positional
modifier, then the structural-bonus reduction. -/
def uniformLevelDamage (disasterId : DisasterId)
    (effectivePower bonus resistance : ℚ) (index len : ℕ) : ℚ :=
  let damage0 := max 0 (effectivePower - resistance)
  let damage1 :=
    if disasterId = Tsunami then
      damage0 * max 0 (1.5 - (index : ℚ) / (len : ℚ))
    else damage0
  let damage2 :=
    if disasterId = Earthquake then
      damage1 * (1.2 - (index : ℚ) / ((len : ℚ) * 2))
    else damage1
  damage2 * (1 - bonus)

/-- The uniform (Earthquake / Hurricane / Tsunami) branch of the wave
resolver: every non-defense component takes per-level damage, defense
components are skipped. -/
def uniformNewHealth (cfg : Catalog) (disasterId : DisasterId)
    (effectivePower bonus : ℚ) (b : BuildingState)
    (health : ComponentHealth) : ComponentHealth :=
  fun componentId =>
    if componentId ∈ defenseComponents then health componentId
    else
      let len := (b componentId).length
      (List.range len).map fun index =>
        let resistance := (cfg componentId ((b componentId).getD index 0)).resistance
        max 0 ((health componentId).getD index 0 -
          uniformLevelDamage disasterId effectivePower bonus resistance index len)

/-- One iteration of the lightning top-3-floors loop: hits Beams,
Walls, Glass, Pillars and Floor at floor index len-1-i with decaying
damage, stopping once the index would run below 0. -/
def lightningFloorHit (effectivePower bonus : ℚ) (i : ℕ)
    (h : ComponentHealth) : ComponentHealth :=
  let lenB := (h Beams).length
  if i < lenB then
    let floorIndex := lenB - 1 - i
    let damageMultiplier : ℚ := 1 / ((i : ℚ) * 1.5 + 1)
    let baseDamage := effectivePower * damageMultiplier
    let finalDamage := baseDamage * (1 - bonus)
    let h1 := applyDamage h Beams floorIndex (finalDamage / 1.25)
    let h2 := applyDamage h1 Walls floorIndex (finalDamage / 1.5)
    let h3 := applyDamage h2 Glass floorIndex (finalDamage / 2)
    let h4 := applyDamage h3 Pillars floorIndex (finalDamage / 1.2)
    applyDamage h4 Floor floorIndex (finalDamage / 1.8)
  else h

/-- The lightning loop over offsets 0, 1, 2 from the top floor. -/
def lightningLoop (effectivePower bonus : ℚ)
    (h : ComponentHealth) : ComponentHealth :=
  List.foldl (fun acc i => lightningFloorHit effectivePower bonus i acc)
    h [0, 1, 2]

/-- The LightningStorm branch of the wave resolver: the rod absorbs the
strike; only when overwhelmed do the rod, the roof and the top three
floors take damage. -/
def lightningNewHealth (cfg : Catalog) (disasterPower bonus : ℚ)
    (b : BuildingState) (health : ComponentHealth) : ComponentHealth :=
  let spdaMaterial := (b LightningRod).getD 0 0
  let spdaResistance := (cfg LightningRod spdaMaterial).resistance
  let effectivePower := max 0 (disasterPower - spdaResistance)
  if spdaResistance < disasterPower then
    let h1 := applyDamage health LightningRod 0
      ((disasterPower - spdaResistance) * 2)
    let h2 := applyDamage h1 Roof 0 (effectivePower * 1.2 * (1 - bonus))
    lightningLoop effectivePower bonus h2
  else health

/-- The wave resolver runSimulationWave, restricted to its
health-update computation: wave intensity scaling, then the
disaster-kind branch. -/
def runSimulationWave (cfg : Catalog) (dcfg : DisasterPowers) (bonus : ℚ)
    (b : BuildingState) (health : ComponentHealth)
    (disasterId : DisasterId) (waveNumber : ℕ) : ComponentHealth :=
  let intensityMultiplier := waveIntensities.getD (waveNumber - 1) 0
  let disasterPower := dcfg disasterId * intensityMultiplier
  if disasterId = LightningStorm then
    lightningNewHealth cfg disasterPower bonus b health
  else
    let defenseResistance := defenseResistanceFor cfg b disasterId
    let effectivePower := max 0 (disasterPower - defenseResistance)
    uniformNewHealth cfg disasterId effectivePower bonus b health

/-- The four narrative outcome tiers of the final message. -/
inductive ResultTier where
  | minimalDamage
  | significantStanding
  | severelyCompromised
  | totalCollapse
  deriving DecidableEq

/-- Iteration order over the full health map (all ten components). -/
def allComponents : List BuildingComponentId :=
  [Pillars, Beams, Walls, Glass, Floor, Roof,
   LightningRod, WindDampers, TsunamiBarriers, SeismicDampers]

/-- Flattened mean of all health values across all components and
levels, as computed after wave 3. -/
def averageHealth (health : ComponentHealth) : ℚ :=
  let allHealthValues := (allComponents.map health).flatten
  allHealthValues.sum / (allHealthValues.length : ℚ)

/-- The strict-threshold result classification of the final message. -/
def classifyResult (averageHealth : ℚ) : ResultTier :=
  if averageHealth > 75 then ResultTier.minimalDamage
  else if averageHealth > 50 then ResultTier.significantStanding
  else if averageHealth > 20 then ResultTier.severelyCompromised
  else ResultTier.totalCollapse

/-- The repair operation handleRepairComponent: restore one
component-level to 100 health, charging half the material cost per full
repair; a no-op when health is already at least 100.  Returns the new
total cost and the new health map. -/
def handleRepairComponent (cfg : Catalog) (b : BuildingState)
    (health : ComponentHealth) (totalCost : ℚ)
    (componentId : BuildingComponentId) (levelIndex : ℕ) :
    ℚ × ComponentHealth :=
  let materialId := (b componentId).getD levelIndex 0
  let material := cfg componentId materialId
  let currentHealth := (health componentId).getD levelIndex 0
  if currentHealth ≥ 100 then (totalCost, health)
  else
    let healthToRestore := 100 - currentHealth
    let costPerPoint := material.cost / 200
    let repairCost := healthToRestore * costPerPoint
    (totalCost + repairCost, updateHealth health componentId levelIndex 100)

/-- A concrete sample catalog for witnesses: a material's resistance is
its own id and its cost is 100 times its id. -/
def sampleCatalog : Catalog := fun _ m => ⟨(m : ℚ) * 100, (m : ℚ)⟩

/-- A concrete one-level building selecting material 1 everywhere. -/
def sampleBuildingA : BuildingState := fun _ => [1]

/-- A concrete one-level building selecting material 2 everywhere. -/
def sampleBuildingB : BuildingState := fun _ => [2]

/-- A concrete health map with every component-level at health 40. -/
def sampleDamagedHealth : ComponentHealth := fun _ => [40]

/-- A concrete disaster-power table assigning power 100 everywhere. -/
def samplePowers : DisasterPowers := fun _ => 100

/-- A concrete catalog whose every material has resistance 1000 (so any
defense component fully absorbs a power-100 disaster). -/
def strongRodCatalog : Catalog := fun _ _ => ⟨0, 1000⟩

/-- Catalog for the hurricane worked example: WindDampers resistance
20, Glass resistance 10, everything else resistance 0. -/
def exCatalog : Catalog := fun c _ =>
  match c with
  | WindDampers => ⟨0, 20⟩
  | Glass => ⟨0, 10⟩
  | _ => ⟨0, 0⟩

/-- One-floor building for the hurricane worked example. -/
def exBuilding : BuildingState := fun _ => [0]

/-- Health map at full health (100) on one level per component. -/
def exFullHealth : ComponentHealth := fun _ => [100]

/-! ## Theorems -/

theorem bonusOfAvg_nonneg (minR maxR maxBonus a : ℚ) (hB : 0 ≤ maxBonus) :
    0 ≤ bonusOfAvg minR maxR maxBonus a := by
  unfold bonusOfAvg
  split_ifs with h1 h2
  · exact le_refl 0
  · exact hB
  · exact mul_nonneg (div_nonneg (by linarith) (by linarith)) hB

theorem bonusOfAvg_le_max (minR maxR maxBonus a : ℚ) (hB : 0 ≤ maxBonus) :
    bonusOfAvg minR maxR maxBonus a ≤ maxBonus := by
  unfold bonusOfAvg
  split_ifs with h1 h2
  · exact hB
  · exact le_refl maxBonus
  · exact mul_le_of_le_one_left hB
      ((div_le_one (by linarith)).mpr (by linarith))

theorem bonusOfAvg_mono (minR maxR maxBonus a₁ a₂ : ℚ) (hB : 0 ≤ maxBonus)
    (hab : a₁ ≤ a₂) :
    bonusOfAvg minR maxR maxBonus a₁ ≤ bonusOfAvg minR maxR maxBonus a₂ := by
  unfold bonusOfAvg
  split_ifs with h1 h2 h3 h4 h5 h6
  · exact le_refl 0
  · exact hB
  · exact mul_nonneg (div_nonneg (by linarith) (by linarith)) hB
  · linarith
  · exact le_refl maxBonus
  · linarith
  · linarith
  · exact mul_le_of_le_one_left hB ((div_le_one (by linarith)).mpr (by linarith))
  · exact mul_le_mul_of_nonneg_right
      ((div_le_div_iff_of_pos_right (by linarith)).mpr (by linarith)) hB

/-- C5: structuralBonus agrees with the piecewise reference definition
written out in the spec: scan every level of Pillars, Beams and Floor,
average the selected materials' resistances, return 0 when no level was
scanned or the average is at most the minimum threshold, the maximum
bonus when the average reaches the maximum threshold, and the linear
interpolation in between. -/
theorem c5_structuralBonus_matches_spec (cfg : Catalog)
    (minR maxR maxBonus : ℚ) (b : BuildingState) :
    structuralBonus cfg minR maxR maxBonus b =
      computeStructuralBonusSpec cfg minR maxR maxBonus b := by
  unfold structuralBonus computeStructuralBonusSpec bonusOfAvg
    structuralLevelCount structuralTotalResistance
  simp [List.length_flatten, List.sum_flatten, Function.comp_def]

/-- C6: the structural bonus always lies in [0, maxBonus], and a
building whose average resistance over Pillars, Beams and Floor is at
least another's receives at least as large a bonus. -/
theorem c6_structuralBonus_range_mono (cfg : Catalog)
    (minR maxR maxBonus : ℚ) (b₁ b₂ : BuildingState) (hB : 0 ≤ maxBonus)
    (h₁ : structuralLevelCount b₁ ≠ 0) (h₂ : structuralLevelCount b₂ ≠ 0)
    (havg : structuralTotalResistance cfg b₁ / (structuralLevelCount b₁ : ℚ) ≤
      structuralTotalResistance cfg b₂ / (structuralLevelCount b₂ : ℚ)) :
    (0 ≤ structuralBonus cfg minR maxR maxBonus b₁ ∧
      structuralBonus cfg minR maxR maxBonus b₁ ≤ maxBonus) ∧
    (0 ≤ structuralBonus cfg minR maxR maxBonus b₂ ∧
      structuralBonus cfg minR maxR maxBonus b₂ ≤ maxBonus) ∧
    structuralBonus cfg minR maxR maxBonus b₁ ≤
      structuralBonus cfg minR maxR maxBonus b₂ := by
  unfold structuralBonus
  simp only [h₁, h₂, if_false]
  exact ⟨⟨bonusOfAvg_nonneg _ _ _ _ hB, bonusOfAvg_le_max _ _ _ _ hB⟩,
    ⟨bonusOfAvg_nonneg _ _ _ _ hB, bonusOfAvg_le_max _ _ _ _ hB⟩,
    bonusOfAvg_mono _ _ _ _ _ hB havg⟩

/-- Witness for C6 at a concrete catalog and pair of buildings. -/
theorem c6_structuralBonus_range_mono_witness :
    (0 ≤ structuralBonus sampleCatalog 0 2 (1/2) sampleBuildingA ∧
      structuralBonus sampleCatalog 0 2 (1/2) sampleBuildingA ≤ 1/2) ∧
    (0 ≤ structuralBonus sampleCatalog 0 2 (1/2) sampleBuildingB ∧
      structuralBonus sampleCatalog 0 2 (1/2) sampleBuildingB ≤ 1/2) ∧
    structuralBonus sampleCatalog 0 2 (1/2) sampleBuildingA ≤
      structuralBonus sampleCatalog 0 2 (1/2) sampleBuildingB :=
  c6_structuralBonus_range_mono sampleCatalog 0 2 (1/2)
    sampleBuildingA sampleBuildingB (by norm_num) (by decide) (by decide)
    (by norm_num [structuralTotalResistance, structuralLevelCount,
      structuralComponents, sampleCatalog, sampleBuildingA, sampleBuildingB])

theorem getD_map_range (f : ℕ → ℚ) (n i : ℕ) :
    ((List.range n).map f).getD i 0 = if i < n then f i else 0 := by
  rcases lt_or_ge i n with h | h
  · rw [List.getD_eq_getElem?_getD, List.getElem?_map, List.getElem?_range h]
    simp [h]
  · rw [List.getD_eq_getElem?_getD, List.getElem?_map,
      List.getElem?_eq_none (by simpa using h)]
    simp [not_lt.mpr h]

theorem getD_set_zero (l : List ℚ) (i j : ℕ) (v : ℚ) :
    (l.set i v).getD j 0 = if i = j ∧ i < l.length then v else l.getD j 0 := by
  rw [List.getD_eq_getElem?_getD, List.getD_eq_getElem?_getD, List.getElem?_set]
  by_cases hij : i = j
  · subst hij
    by_cases hlen : i < l.length
    · simp [hlen]
    · simp [hlen, List.getElem?_eq_none (le_of_not_lt hlen)]
  · simp [hij]

theorem classifyResult_iff (a : ℚ) :
    (classifyResult a = ResultTier.minimalDamage ↔ 75 < a) ∧
    (classifyResult a = ResultTier.significantStanding ↔ 50 < a ∧ a ≤ 75) ∧
    (classifyResult a = ResultTier.severelyCompromised ↔ 20 < a ∧ a ≤ 50) ∧
    (classifyResult a = ResultTier.totalCollapse ↔ a ≤ 20) := by
  unfold classifyResult
  split_ifs with h1 h2 h3 <;> refine ⟨?_, ?_, ?_, ?_⟩ <;> simp_all <;>
    first
      | linarith
      | (intro h; linarith)

/-- C7: after wave 3 the result is classified from the flattened
arithmetic mean of all component-level health values by strict
thresholds 75, 50, 20 into the four narrative tiers; a mean of exactly
75 selects the significant-damage tier and a mean of exactly 50 selects
the severely-compromised tier. -/
theorem c7_classification_tiers (health : ComponentHealth) :
    averageHealth health =
      ((allComponents.map health).flatten).sum /
        (((allComponents.map health).flatten).length : ℚ) ∧
    (classifyResult (averageHealth health) = ResultTier.minimalDamage ↔
      75 < averageHealth health) ∧
    (classifyResult (averageHealth health) = ResultTier.significantStanding ↔
      50 < averageHealth health ∧ averageHealth health ≤ 75) ∧
    (classifyResult (averageHealth health) = ResultTier.severelyCompromised ↔
      20 < averageHealth health ∧ averageHealth health ≤ 50) ∧
    (classifyResult (averageHealth health) = ResultTier.totalCollapse ↔
      averageHealth health ≤ 20) ∧
    classifyResult 75 = ResultTier.significantStanding ∧
    classifyResult 50 = ResultTier.severelyCompromised := by
  refine ⟨rfl, (classifyResult_iff _).1, (classifyResult_iff _).2.1,
    (classifyResult_iff _).2.2.1, (classifyResult_iff _).2.2.2, ?_, ?_⟩ <;>
    norm_num [classifyResult]

/-- C9: repairing a component-level whose health is below 100 restores
it to exactly 100 and charges (100 - currentHealth) times one
two-hundredth of the selected material's cost. -/
theorem c9_handleRepairComponent (cfg : Catalog) (b : BuildingState)
    (health : ComponentHealth) (totalCost : ℚ) (c : BuildingComponentId)
    (i : ℕ) (hlt : (health c).getD i 0 < 100) (hi : i < (health c).length) :
    (handleRepairComponent cfg b health totalCost c i).1 =
      totalCost + (100 - (health c).getD i 0) *
        ((cfg c ((b c).getD i 0)).cost / 200) ∧
    ((handleRepairComponent cfg b health totalCost c i).2 c).getD i 0 = 100 := by
  unfold handleRepairComponent
  rw [if_neg (not_le.mpr hlt)]
  refine ⟨rfl, ?_⟩
  simp only [updateHealth]
  rw [if_pos trivial, getD_set_zero]
  simp [hi]

/-- Witness for C9: repairing a level at health 40 whose material costs
200 charges exactly 60 and restores the level to 100. -/
theorem c9_handleRepairComponent_witness :
    (handleRepairComponent sampleCatalog sampleBuildingB
        sampleDamagedHealth 0 BuildingComponentId.Pillars 0).1 =
      0 + (100 - (sampleDamagedHealth BuildingComponentId.Pillars).getD 0 0) *
        ((sampleCatalog BuildingComponentId.Pillars
          ((sampleBuildingB BuildingComponentId.Pillars).getD 0 0)).cost / 200) ∧
    ((handleRepairComponent sampleCatalog sampleBuildingB
        sampleDamagedHealth 0 BuildingComponentId.Pillars 0).2
          BuildingComponentId.Pillars).getD 0 0 = 100 :=
  c9_handleRepairComponent sampleCatalog sampleBuildingB sampleDamagedHealth
    0 BuildingComponentId.Pillars 0
    (by norm_num [sampleDamagedHealth]) (by norm_num [sampleDamagedHealth])

/-- C10: an Earthquake, Hurricane or Tsunami wave leaves the health of
all four defense components exactly unchanged, including the defense
whose resistance absorbed the disaster's power. -/
theorem c10_defenses_unchanged_nonlightning (cfg : Catalog)
    (dcfg : DisasterPowers) (bonus : ℚ) (b : BuildingState)
    (health : ComponentHealth) (d : DisasterId) (w : ℕ)
    (hd : d = Earthquake ∨ d = Hurricane ∨ d = Tsunami) :
    ∀ c ∈ defenseComponents,
      runSimulationWave cfg dcfg bonus b health d w c = health c := by
  intro c hc
  have hne : d ≠ LightningStorm := by rcases hd with h | h | h <;> subst h <;> simp
  simp only [runSimulationWave, if_neg hne, uniformNewHealth, if_pos hc]

/-- Witness for C10: an Earthquake wave does not change the health of
the SeismicDampers that absorbed it. -/
theorem c10_defenses_unchanged_nonlightning_witness :
    runSimulationWave sampleCatalog samplePowers 0 sampleBuildingA
        sampleDamagedHealth Earthquake 1 SeismicDampers =
      sampleDamagedHealth SeismicDampers :=
  c10_defenses_unchanged_nonlightning sampleCatalog samplePowers 0
    sampleBuildingA sampleDamagedHealth Earthquake 1 (Or.inl rfl)
    SeismicDampers (by decide)

/-- C8: the hurricane worked example of the spec: wave 1 of a power-100
Hurricane against WindDampers of resistance 20 and a Glass level of
resistance 10 at full health, with zero structural bonus, leaves that
Glass level at exactly 70. -/
theorem c8_hurricane_example :
    runSimulationWave exCatalog samplePowers 0 exBuilding exFullHealth
      Hurricane 1 Glass = [70] := by
  unfold runSimulationWave
  rw [if_neg (by decide : ((Hurricane : DisasterId) = LightningStorm) → False)]
  simp only [uniformNewHealth, defenseResistanceFor, waveIntensities,
    exCatalog, exBuilding, exFullHealth, samplePowers, defenseComponents]
  rw [if_neg (by decide : (Glass ∈
    [LightningRod, WindDampers, TsunamiBarriers, SeismicDampers]) → False)]
  have h1 : (Hurricane : DisasterId) ≠ Earthquake := by decide
  have h2 : (Hurricane : DisasterId) ≠ Tsunami := by decide
  norm_num [uniformLevelDamage, List.range_succ, h1, h2]

/-- C4: when the LightningRod's resistance reaches the disaster power
of a LightningStorm wave, no lightning damage path is entered: the
output health equals the input health for the rod, the roof and every
level of every structural component. -/
theorem c4_lightning_fully_absorbed (cfg : Catalog) (dcfg : DisasterPowers)
    (bonus : ℚ) (b : BuildingState) (health : ComponentHealth) (w : ℕ)
    (hres : dcfg LightningStorm * waveIntensities.getD (w - 1) 0 ≤
      (cfg LightningRod ((b LightningRod).getD 0 0)).resistance) :
    runSimulationWave cfg dcfg bonus b health LightningStorm w LightningRod =
      health LightningRod ∧
    runSimulationWave cfg dcfg bonus b health LightningStorm w Roof =
      health Roof ∧
    ∀ c ∈ [Pillars, Beams, Walls, Glass, Floor],
      runSimulationWave cfg dcfg bonus b health LightningStorm w c =
        health c := by
  have key : ∀ c, runSimulationWave cfg dcfg bonus b health LightningStorm w c
      = health c := by
    intro c
    simp only [runSimulationWave, if_pos rfl, lightningNewHealth,
      if_neg (not_lt.mpr hres), if_true]
  exact ⟨key _, key _, fun c _ => key c⟩

/-- Witness for C4 with a resistance-1000 rod against a power-100
storm. -/
theorem c4_lightning_fully_absorbed_witness :
    runSimulationWave strongRodCatalog samplePowers 0 sampleBuildingA
        sampleDamagedHealth LightningStorm 1 LightningRod =
      sampleDamagedHealth LightningRod ∧
    runSimulationWave strongRodCatalog samplePowers 0 sampleBuildingA
        sampleDamagedHealth LightningStorm 1 Roof =
      sampleDamagedHealth Roof ∧
    ∀ c ∈ [Pillars, Beams, Walls, Glass, Floor],
      runSimulationWave strongRodCatalog samplePowers 0 sampleBuildingA
          sampleDamagedHealth LightningStorm 1 c =
        sampleDamagedHealth c :=
  c4_lightning_fully_absorbed strongRodCatalog samplePowers 0
    sampleBuildingA sampleDamagedHealth 1
    (by norm_num [strongRodCatalog, samplePowers, waveIntensities])

theorem updateHealth_apply_ne (h : ComponentHealth) (c : BuildingComponentId)
    (i : ℕ) (v : ℚ) (x : BuildingComponentId) (hx : x ≠ c) :
    updateHealth h c i v x = h x := by
  simp only [updateHealth, if_neg hx]

theorem applyDamage_apply_ne (h : ComponentHealth) (c : BuildingComponentId)
    (i : ℕ) (d : ℚ) (x : BuildingComponentId) (hx : x ≠ c) :
    applyDamage h c i d x = h x :=
  updateHealth_apply_ne h c i _ x hx

theorem applyDamage_apply_self (h : ComponentHealth) (c : BuildingComponentId)
    (i : ℕ) (d : ℚ) :
    applyDamage h c i d c = (h c).set i (max 0 ((h c).getD i 0 - d)) := by
  simp only [applyDamage, updateHealth, if_pos rfl, if_true]

theorem lightningFloorHit_apply_ne (ep bo : ℚ) (i : ℕ)
    (h : ComponentHealth) (x : BuildingComponentId) (hx1 : x ≠ Beams)
    (hx2 : x ≠ Walls) (hx3 : x ≠ Glass) (hx4 : x ≠ Pillars)
    (hx5 : x ≠ Floor) : lightningFloorHit ep bo i h x = h x := by
  simp only [lightningFloorHit]
  split_ifs with hi
  · rw [applyDamage_apply_ne _ _ _ _ _ hx5, applyDamage_apply_ne _ _ _ _ _ hx4,
      applyDamage_apply_ne _ _ _ _ _ hx3, applyDamage_apply_ne _ _ _ _ _ hx2,
      applyDamage_apply_ne _ _ _ _ _ hx1]
  · rfl

theorem lightningLoop_apply_ne (ep bo : ℚ) (h : ComponentHealth)
    (x : BuildingComponentId) (hx1 : x ≠ Beams) (hx2 : x ≠ Walls)
    (hx3 : x ≠ Glass) (hx4 : x ≠ Pillars) (hx5 : x ≠ Floor) :
    lightningLoop ep bo h x = h x := by
  simp only [lightningLoop, List.foldl_cons, List.foldl_nil]
  rw [lightningFloorHit_apply_ne _ _ _ _ _ hx1 hx2 hx3 hx4 hx5,
    lightningFloorHit_apply_ne _ _ _ _ _ hx1 hx2 hx3 hx4 hx5,
    lightningFloorHit_apply_ne _ _ _ _ _ hx1 hx2 hx3 hx4 hx5]

/-- C2: in an overwhelming LightningStorm wave the rod loses twice the
raw exceedance with the structural bonus NOT applied, while the roof
loses effectivePower times 1.2 with the bonus applied; this asymmetry
holds for every bonus value. -/
theorem c2_lightning_rod_roof_asymmetry (cfg : Catalog)
    (dcfg : DisasterPowers) (bonus : ℚ) (b : BuildingState)
    (health : ComponentHealth) (w : ℕ)
    (hrod : 0 < (health LightningRod).length)
    (hroof : 0 < (health Roof).length)
    (hres : (cfg LightningRod ((b LightningRod).getD 0 0)).resistance <
      dcfg LightningStorm * waveIntensities.getD (w - 1) 0) :
    (runSimulationWave cfg dcfg bonus b health LightningStorm w
        LightningRod).getD 0 0 =
      max 0 ((health LightningRod).getD 0 0 -
        (dcfg LightningStorm * waveIntensities.getD (w - 1) 0 -
          (cfg LightningRod ((b LightningRod).getD 0 0)).resistance) * 2) ∧
    (runSimulationWave cfg dcfg bonus b health LightningStorm w
        Roof).getD 0 0 =
      max 0 ((health Roof).getD 0 0 -
        max 0 (dcfg LightningStorm * waveIntensities.getD (w - 1) 0 -
            (cfg LightningRod ((b LightningRod).getD 0 0)).resistance) *
          1.2 * (1 - bonus)) := by
  simp only [runSimulationWave, if_pos rfl, if_true, lightningNewHealth,
    if_pos hres]
  constructor
  · rw [lightningLoop_apply_ne _ _ _ _ (by decide) (by decide) (by decide)
      (by decide) (by decide),
      applyDamage_apply_ne _ _ _ _ _ (by decide),
      applyDamage_apply_self, getD_set_zero]
    simp [hrod]
  · rw [lightningLoop_apply_ne _ _ _ _ (by decide) (by decide) (by decide)
      (by decide) (by decide),
      applyDamage_apply_self, applyDamage_apply_ne _ _ _ _ _ (by decide),
      getD_set_zero]
    simp [hroof, applyDamage_apply_ne _ _ _ _ _ (by decide : Roof ≠ LightningRod)]

/-- Witness for C2: a power-100 storm at wave 1 against a resistance-1
rod, every level at health 40. -/
theorem c2_lightning_rod_roof_asymmetry_witness :
    (runSimulationWave sampleCatalog samplePowers (1/4) sampleBuildingA
        sampleDamagedHealth LightningStorm 1 LightningRod).getD 0 0 =
      max 0 ((sampleDamagedHealth LightningRod).getD 0 0 -
        (samplePowers LightningStorm * waveIntensities.getD (1 - 1) 0 -
          (sampleCatalog LightningRod
            ((sampleBuildingA LightningRod).getD 0 0)).resistance) * 2) ∧
    (runSimulationWave sampleCatalog samplePowers (1/4) sampleBuildingA
        sampleDamagedHealth LightningStorm 1 Roof).getD 0 0 =
      max 0 ((sampleDamagedHealth Roof).getD 0 0 -
        max 0 (samplePowers LightningStorm * waveIntensities.getD (1 - 1) 0 -
            (sampleCatalog LightningRod
              ((sampleBuildingA LightningRod).getD 0 0)).resistance) *
          1.2 * (1 - 1/4)) :=
  c2_lightning_rod_roof_asymmetry sampleCatalog samplePowers (1/4)
    sampleBuildingA sampleDamagedHealth 1
    (by norm_num [sampleDamagedHealth]) (by norm_num [sampleDamagedHealth])
    (by norm_num [sampleCatalog, sampleBuildingA, samplePowers,
      waveIntensities])

/-- C1: for Earthquake, Hurricane and Tsunami waves the resolver
computes effectivePower as the wave-scaled disaster power minus the
matching defense's level-0 resistance (floored at 0), and every level
of every non-defense component loses max(0, effectivePower minus its
own material resistance), scaled by the disaster's positional modifier
and by one minus the structural bonus, with the resulting health
clamped at 0. -/
theorem c1_uniform_damage_formula (cfg : Catalog) (dcfg : DisasterPowers)
    (bonus : ℚ) (b : BuildingState) (health : ComponentHealth)
    (d : DisasterId) (w : ℕ) (c : BuildingComponentId) (i : ℕ)
    (hd : d = Earthquake ∨ d = Hurricane ∨ d = Tsunami)
    (hw : w = 1 ∨ w = 2 ∨ w = 3)
    (hc : c ∉ defenseComponents)
    (hi : i < (b c).length) :
    (runSimulationWave cfg dcfg bonus b health d w c).getD i 0 =
      max 0 ((health c).getD i 0 -
        max 0
            (max 0 (dcfg d *
                (if w = 1 then (0.6 : ℚ) else if w = 2 then 0.8 else 1) -
              (if d = Hurricane then
                  (cfg WindDampers ((b WindDampers).getD 0 0)).resistance
                else if d = Tsunami then
                  (cfg TsunamiBarriers
                    ((b TsunamiBarriers).getD 0 0)).resistance
                else
                  (cfg SeismicDampers
                    ((b SeismicDampers).getD 0 0)).resistance)) -
              (cfg c ((b c).getD i 0)).resistance) *
          (if d = Tsunami then
              max 0 (1.5 - (i : ℚ) / ((b c).length : ℚ))
            else if d = Earthquake then
              1.2 - (i : ℚ) / (((b c).length : ℚ) * 2)
            else 1) *
          (1 - bonus)) := by
  have hne : d ≠ LightningStorm := by rcases hd with h | h | h <;> subst h <;> simp
  simp only [runSimulationWave, if_neg hne, uniformNewHealth, if_neg hc]
  rw [getD_map_range, if_pos hi]
  rcases hw with h | h | h <;> subst h <;>
    rcases hd with h | h | h <;> subst h <;>
      simp [uniformLevelDamage, defenseResistanceFor, waveIntensities] <;>
        ring_nf

/-- Witness for C1: the hurricane worked example seen through the
general formula. -/
theorem c1_uniform_damage_formula_witness :
    (runSimulationWave exCatalog samplePowers 0 exBuilding exFullHealth
        Hurricane 1 Glass).getD 0 0 =
      max 0 ((exFullHealth Glass).getD 0 0 -
        max 0
            (max 0 (samplePowers Hurricane *
                (if (1 : ℕ) = 1 then (0.6 : ℚ) else if (1 : ℕ) = 2 then 0.8 else 1) -
              (if Hurricane = Hurricane then
                  (exCatalog WindDampers
                    ((exBuilding WindDampers).getD 0 0)).resistance
                else if Hurricane = Tsunami then
                  (exCatalog TsunamiBarriers
                    ((exBuilding TsunamiBarriers).getD 0 0)).resistance
                else
                  (exCatalog SeismicDampers
                    ((exBuilding SeismicDampers).getD 0 0)).resistance)) -
              (exCatalog Glass ((exBuilding Glass).getD 0 0)).resistance) *
          (if Hurricane = Tsunami then
              max 0 (1.5 - (0 : ℚ) / ((exBuilding Glass).length : ℚ))
            else if Hurricane = Earthquake then
              1.2 - (0 : ℚ) / (((exBuilding Glass).length : ℚ) * 2)
            else 1) *
          (1 - 0)) :=
  c1_uniform_damage_formula exCatalog samplePowers 0 exBuilding exFullHealth
    Hurricane 1 Glass 0 (Or.inr (Or.inl rfl)) (Or.inl rfl) (by decide)
    (by norm_num [exBuilding])

theorem uniformLevelDamage_nonneg (d : DisasterId) (ep bonus res : ℚ)
    (i len : ℕ) (hb : bonus ≤ 1) (hil : i < len) :
    0 ≤ uniformLevelDamage d ep bonus res i len := by
  have hl : (0 : ℚ) < (len : ℚ) := by
    exact_mod_cast Nat.lt_of_le_of_lt (Nat.zero_le i) hil
  have hi : (i : ℚ) < (len : ℚ) := by exact_mod_cast hil
  have hmod2 : (0 : ℚ) ≤ 1.2 - (i : ℚ) / ((len : ℚ) * 2) := by
    have hq : (i : ℚ) / ((len : ℚ) * 2) ≤ 1 := by
      rw [div_le_one (by linarith)]
      linarith
    linarith
  have h0 : (0 : ℚ) ≤ max 0 (ep - res) := le_max_left _ _
  have hbb : (0 : ℚ) ≤ 1 - bonus := by linarith
  unfold uniformLevelDamage
  split_ifs with h1 h2 h3
  · exact mul_nonneg (mul_nonneg (mul_nonneg h0 (le_max_left _ _)) hmod2) hbb
  · exact mul_nonneg (mul_nonneg h0 (le_max_left _ _)) hbb
  · exact mul_nonneg (mul_nonneg h0 hmod2) hbb
  · exact mul_nonneg h0 hbb

theorem applyDamage_bounds (h0 h : ComponentHealth) (c : BuildingComponentId)
    (i : ℕ) (d : ℚ) (hd : 0 ≤ d)
    (hinv : ∀ x j, 0 ≤ (h x).getD j 0 ∧ (h x).getD j 0 ≤ (h0 x).getD j 0) :
    ∀ x j, 0 ≤ ((applyDamage h c i d) x).getD j 0 ∧
      ((applyDamage h c i d) x).getD j 0 ≤ (h0 x).getD j 0 := by
  intro x j
  by_cases hx : x = c
  · subst hx
    rw [applyDamage_apply_self, getD_set_zero]
    split_ifs with hij
    · obtain ⟨hij1, _⟩ := hij
      subst hij1
      refine ⟨le_max_left _ _, ?_⟩
      exact le_trans
        (max_le (hinv x i).1 (by linarith [(hinv x i).1]))
        (hinv x i).2
    · exact hinv x j
  · rw [applyDamage_apply_ne _ _ _ _ _ hx]
    exact hinv x j

theorem lightningFloorHit_bounds (h0 h : ComponentHealth) (ep bo : ℚ)
    (i : ℕ) (hep : 0 ≤ ep) (hbo : bo ≤ 1)
    (hinv : ∀ x j, 0 ≤ (h x).getD j 0 ∧ (h x).getD j 0 ≤ (h0 x).getD j 0) :
    ∀ x j, 0 ≤ ((lightningFloorHit ep bo i h) x).getD j 0 ∧
      ((lightningFloorHit ep bo i h) x).getD j 0 ≤ (h0 x).getD j 0 := by
  have hfd : (0 : ℚ) ≤ ep * (1 / ((i : ℚ) * 1.5 + 1)) * (1 - bo) := by
    apply mul_nonneg (mul_nonneg hep _) (by linarith)
    positivity
  simp only [lightningFloorHit]
  split_ifs with hi
  · exact applyDamage_bounds h0 _ Floor _ _ (div_nonneg hfd (by norm_num))
      (applyDamage_bounds h0 _ Pillars _ _ (div_nonneg hfd (by norm_num))
        (applyDamage_bounds h0 _ Glass _ _ (div_nonneg hfd (by norm_num))
          (applyDamage_bounds h0 _ Walls _ _ (div_nonneg hfd (by norm_num))
            (applyDamage_bounds h0 _ Beams _ _
              (div_nonneg hfd (by norm_num)) hinv))))
  · exact hinv

theorem lightningLoop_bounds (h0 h : ComponentHealth) (ep bo : ℚ)
    (hep : 0 ≤ ep) (hbo : bo ≤ 1)
    (hinv : ∀ x j, 0 ≤ (h x).getD j 0 ∧ (h x).getD j 0 ≤ (h0 x).getD j 0) :
    ∀ x j, 0 ≤ ((lightningLoop ep bo h) x).getD j 0 ∧
      ((lightningLoop ep bo h) x).getD j 0 ≤ (h0 x).getD j 0 := by
  simp only [lightningLoop, List.foldl_cons, List.foldl_nil]
  exact lightningFloorHit_bounds h0 _ _ _ 2 hep hbo
    (lightningFloorHit_bounds h0 _ _ _ 1 hep hbo
      (lightningFloorHit_bounds h0 _ _ _ 0 hep hbo hinv))

theorem lightningNewHealth_bounds (cfg : Catalog) (dp bo : ℚ)
    (b : BuildingState) (health : ComponentHealth) (hbo : bo ≤ 1)
    (hin : ∀ x j, 0 ≤ (health x).getD j 0) :
    ∀ x j, 0 ≤ ((lightningNewHealth cfg dp bo b health) x).getD j 0 ∧
      ((lightningNewHealth cfg dp bo b health) x).getD j 0 ≤
        (health x).getD j 0 := by
  simp only [lightningNewHealth]
  split_ifs with hlt
  · refine lightningLoop_bounds health _ _ _ (le_max_left _ _) hbo ?_
    refine applyDamage_bounds health _ Roof 0 _ ?_ ?_
    · exact mul_nonneg (mul_nonneg (le_max_left _ _) (by norm_num))
        (by linarith)
    · refine applyDamage_bounds health _ LightningRod 0 _ ?_ ?_
      · nlinarith [hlt]
      · exact fun x j => ⟨hin x j, le_refl _⟩
  · exact fun x j => ⟨hin x j, le_refl _⟩

theorem uniformNewHealth_bounds (cfg : Catalog) (d : DisasterId)
    (ep bo : ℚ) (b : BuildingState) (health : ComponentHealth)
    (hbo : bo ≤ 1) (hin : ∀ x j, 0 ≤ (health x).getD j 0) :
    ∀ x j, 0 ≤ ((uniformNewHealth cfg d ep bo b health) x).getD j 0 ∧
      ((uniformNewHealth cfg d ep bo b health) x).getD j 0 ≤
        (health x).getD j 0 := by
  intro x j
  simp only [uniformNewHealth]
  split_ifs with hmem
  · exact ⟨hin x j, le_refl _⟩
  · rw [getD_map_range]
    split_ifs with hj
    · have hd := uniformLevelDamage_nonneg d ep bo
        (cfg x ((b x).getD j 0)).resistance j (b x).length hbo hj
      exact ⟨le_max_left _ _, max_le (hin x j) (by linarith [hin x j])⟩
    · exact ⟨le_refl 0, hin x j⟩

/-- C3: wave resolution is damage-only: whenever the structural bonus
lies in [0, maxBonus] with maxBonus at most 1 and every input health
value lies in [0, 100], every output value of the resolver lies in
[0, 100] and never exceeds the corresponding input value. -/
theorem c3_wave_damage_only (cfg : Catalog) (dcfg : DisasterPowers)
    (bonus maxBonus : ℚ) (b : BuildingState) (health : ComponentHealth)
    (d : DisasterId) (w : ℕ) (hb0 : 0 ≤ bonus) (hbM : bonus ≤ maxBonus)
    (hM1 : maxBonus ≤ 1)
    (hin : ∀ c i, 0 ≤ (health c).getD i 0 ∧ (health c).getD i 0 ≤ 100) :
    ∀ c i,
      0 ≤ (runSimulationWave cfg dcfg bonus b health d w c).getD i 0 ∧
      (runSimulationWave cfg dcfg bonus b health d w c).getD i 0 ≤ 100 ∧
      (runSimulationWave cfg dcfg bonus b health d w c).getD i 0 ≤
        (health c).getD i 0 := by
  have hb1 : bonus ≤ 1 := le_trans hbM hM1
  intro c i
  unfold runSimulationWave
  split_ifs with hld
  · obtain ⟨h1, h2⟩ := lightningNewHealth_bounds cfg _ bonus b health hb1
      (fun x j => (hin x j).1) c i
    exact ⟨h1, le_trans h2 (hin c i).2, h2⟩
  · obtain ⟨h1, h2⟩ := uniformNewHealth_bounds cfg d _ bonus b health hb1
      (fun x j => (hin x j).1) c i
    exact ⟨h1, le_trans h2 (hin c i).2, h2⟩

/-- Witness for C3 with a power-100 Earthquake at wave 1, bonus 1/4 of
maxBonus 1/2, against a building at health 40 everywhere. -/
theorem c3_wave_damage_only_witness :
    0 ≤ (runSimulationWave sampleCatalog samplePowers (1/4) sampleBuildingA
        sampleDamagedHealth Earthquake 1 Pillars).getD 0 0 ∧
    (runSimulationWave sampleCatalog samplePowers (1/4) sampleBuildingA
        sampleDamagedHealth Earthquake 1 Pillars).getD 0 0 ≤ 100 ∧
    (runSimulationWave sampleCatalog samplePowers (1/4) sampleBuildingA
        sampleDamagedHealth Earthquake 1 Pillars).getD 0 0 ≤
      (sampleDamagedHealth Pillars).getD 0 0 :=
  c3_wave_damage_only sampleCatalog samplePowers (1/4) (1/2)
    sampleBuildingA sampleDamagedHealth Earthquake 1 (by norm_num)
    (by norm_num) (by norm_num)
    (by
      intro c i
      cases i with
      | zero => norm_num [sampleDamagedHealth]
      | succ n => simp [sampleDamagedHealth])
    Pillars 0

end Sismotower
